import Mathlib

/-!
# Advantech PCI CAN cards: the probe and removal paths of `adv_pci.c`

A shallow embedding of `drivers/net/can/sja1000/adv_pci.c`.

* Calls into the kernel (PCI core, allocator, SJA1000 core, MMIO accessors) are
  recorded, in program order, as a list of `Event`s.
* The answers of the kernel and of the hardware to these calls are supplied by an
  `Env` of oracles.
* `adv_pci_add_one` and `adv_pci_remove_one` are state-passing functions over
  `State`; a dereference of a NULL card pointer is the result `none`.
-/

namespace AdvPci

/-! ## Constants -/

/-- Max no of channels on a single card. -/
def MAX_NO_OF_CHANNELS : Nat := 4

/-- The vendor id of Advantech. -/
def PCI_VENDOR_ID_ADV : Nat := 0x13fe

/-- Value of `ENODEV` in the kernel's errno table. -/
def ENODEV : Int := 19

/-- Value of `ENOMEM` in the kernel's errno table. -/
def ENOMEM : Int := 12

/-- Value of `EIO` in the kernel's errno table. -/
def EIO : Int := 5

/-- Value of `IRQF_SHARED` in the kernel's interrupt flags. -/
def IRQF_SHARED : Nat := 0x80

/-- Internal clock is 1/2 of the external oscillator frequency, which is 16 MHz. -/
def ADV_PCI_CAN_CLOCK : Nat := 16000000 / 2

/-- The constants that `adv_pci.c` takes from the header `sja1000.h`, which is not
among the sources; the driver is modelled over an arbitrary such header. -/
structure Sja1000Header where
  SJA1000_MOD : Nat
  SJA1000_CDR : Nat
  CDR_PELICAN : Nat
  CDR_CBP : Nat
  OCR_TX0_PUSHPULL : Nat
  OCR_TX1_PUSHPULL : Nat
  OCR_TX1_INVERT : Nat
deriving DecidableEq, Repr

/-- Modelled from the spec: the header `sja1000.h` is missing from the sources. The
spec names a mode register, a clock-divider register, the divider value selecting the
extended (PeliCAN) layout and the bit CBP; the numbers are those of the SJA1000
register map (mode register 0, clock divider 31, PeliCAN bit 0x80, CBP bit 0x40, and
the output-control drive bits). -/
def sja1000_h : Sja1000Header :=
  { SJA1000_MOD := 0x00
    SJA1000_CDR := 0x1F
    CDR_PELICAN := 0x80
    CDR_CBP := 0x40
    OCR_TX0_PUSHPULL := 0x18
    OCR_TX1_PUSHPULL := 0xc0
    OCR_TX1_INVERT := 0x20 }

/-- Depends on the board configuration. -/
def ADV_PCI_OCR (hdr : Sja1000Header) : Nat :=
  hdr.OCR_TX0_PUSHPULL ||| hdr.OCR_TX1_PUSHPULL ||| hdr.OCR_TX1_INVERT

/-- In the CDR register, you should set CBP to 1. -/
def ADV_PCI_CDR (hdr : Sja1000Header) : Nat := hdr.CDR_CBP

/-- The device ids of `adv_pci_tbl` (every entry has vendor `PCI_VENDOR_ID_ADV` and
matches any subsystem), in the order of the table. -/
def adv_pci_tbl : List Nat :=
  [0x1680, 0x3680, 0x2052, 0x1681,
   0xc001, 0xc002, 0xc004, 0xc101, 0xc102, 0xc104,
   0xc201, 0xc202, 0xc204, 0xc301, 0xc302, 0xc304]

/-! ## Data model -/

/-- The `struct adv_pci_card`; `pci_dev` is the device the state belongs to. A channel
pointer is `none` for NULL and `some d` for the handle `d`. -/
structure adv_pci_card where
  channels : Nat
  net_dev : List (Option Nat)
  RegShift : Nat
deriving DecidableEq, Repr

/-- The fields of `struct sja1000_priv` that the driver assigns. `priv->priv` is the
one card of the device, and `read_reg`, `write_reg` are always `adv_pci_read_reg` and
`adv_pci_write_reg`. -/
structure sja1000_priv where
  reg_base : Int
  irq_flags : Nat
  freq : Nat
  ocr : Nat
  cdr : Nat
deriving DecidableEq, Repr

/-- The fields of `struct net_device` that the driver assigns, with its private area. -/
structure net_device where
  irq : Nat
  dev_id : Nat
  priv : sja1000_priv
deriving DecidableEq, Repr

/-- One call into the kernel or one bus access, with its arguments and, for the calls
whose result the driver looks at, its result. A channel handle is named by its
position in `State.devs`. `pci_iounmap` is the kernel call that releases a window
mapped by `pci_iomap`. -/
inductive Event where
  | pci_enable_device (ret : Int)
  | kzalloc (ok : Bool)
  | pci_set_drvdata (nonnull : Bool)
  | alloc_sja1000dev (dev : Option Nat)
  | pci_iomap (bar : Nat) (maxlen : Nat) (addr : Int)
  | pci_iounmap (addr : Int)
  | iowrite8 (val : Nat) (addr : Int)
  | ioread8 (addr : Int) (val : Nat)
  | register_sja1000dev (dev : Nat) (ret : Int)
  | unregister_sja1000dev (dev : Nat)
  | free_sja1000dev (dev : Nat)
  | kfree
  | pci_disable_device
deriving DecidableEq, Repr

/-- The PCI device handed to the probe together with the answers of the kernel and of
the hardware. The answers of the per-channel calls are indexed by the loop
iteration in which the call is made; a bus read is answered from the whole history
of calls so far and the address read. -/
structure Env where
  device : Nat
  irq : Nat
  pci_enable_device : Int
  kzalloc : Bool
  alloc_sja1000dev : Nat → Bool
  pci_iomap : Nat → Nat → Int
  ioread8 : List Event → Int → Nat
  register_sja1000dev : Nat → Int

/-- The driver data pointer of the device (the card it points to, `none` for NULL),
the channel handles allocated so far (a freed handle stays in the list; freeing is a
call in the history), and the calls made so far. -/
structure State where
  drvdata : Option adv_pci_card
  devs : List net_device
  trace : List Event
deriving DecidableEq, Repr

/-! ## Register access -/

/-- A C `int` result, wrapped to 32 bits two's complement. -/
def wrap_int32 (x : Int) : Int := (x + 2 ^ 31) % 2 ^ 32 - 2 ^ 31

/-- The C expression `port << RegShift` on `int port`. -/
def int_shl (port : Int) (RegShift : Nat) : Int := wrap_int32 (port * 2 ^ RegShift)

/-- Read one of the SJA1000 registers: the byte read and the history extended by the
bus read. -/
def adv_pci_read_reg (env : Env) (card : adv_pci_card) (priv : sja1000_priv)
    (port : Int) (tr : List Event) : Nat × List Event :=
  let addr := priv.reg_base + int_shl port card.RegShift
  let val := env.ioread8 tr addr % 256
  (val, tr ++ [Event.ioread8 addr val])

/-- Write one of the SJA1000 registers. -/
def adv_pci_write_reg (card : adv_pci_card) (priv : sja1000_priv)
    (port : Int) (val : Nat) (tr : List Event) : List Event :=
  tr ++ [Event.iowrite8 (val % 256) (priv.reg_base + int_shl port card.RegShift)]

/-- The function `adv_pci_reset`: its return value and the extended history. -/
def adv_pci_reset (hdr : Sja1000Header) (env : Env) (card : adv_pci_card)
    (priv : sja1000_priv) (tr : List Event) : Int × List Event :=
  -- Make sure SJA1000 is in reset mode
  let tr1 := adv_pci_write_reg card priv hdr.SJA1000_MOD 1 tr
  -- Set PeliCAN mode
  let tr2 := adv_pci_write_reg card priv hdr.SJA1000_CDR hdr.CDR_PELICAN tr1
  -- check if mode is set
  let r := adv_pci_read_reg env card priv hdr.SJA1000_CDR tr2
  if r.1 ≠ hdr.CDR_PELICAN then (- EIO, r.2) else (0, r.2)

/-! ## Removal -/

/-- One iteration of the loop of `adv_pci_remove_one`. -/
def remove_channel (card : adv_pci_card) (tr : List Event) (i : Nat) : List Event :=
  match card.net_dev.getD i none with
  | none => tr
  | some dev => tr ++ [Event.unregister_sja1000dev dev, Event.free_sja1000dev dev]

/-- The function `adv_pci_remove_one`; `none` when the driver data pointer is NULL
(the loop bound `card->channels` dereferences it). -/
def adv_pci_remove_one (st : State) : Option State :=
  match st.drvdata with
  | none => none
  | some card =>
    let tr := (List.range card.channels).foldl (remove_channel card) st.trace
    some { drvdata := none
           devs := st.devs
           trace := tr ++ [Event.kfree, Event.pci_disable_device,
                           Event.pci_set_drvdata false] }

/-! ## Probe -/

/-- The local variables that the `switch` on the device id sets. -/
structure Topology where
  portNum : Nat
  bar : Nat
  barFlag : Nat
  offset : Nat
  RegShift : Nat
deriving DecidableEq, Repr

/-- The `switch (pdev->device)` of `adv_pci_add_one`, on the initial values
`portNum = 0`, `bar = 0`, `barFlag = 0`, `offset = 0x100`, `RegShift = 0`. -/
def identify (device : Nat) : Topology :=
  if device = 0xc001 ∨ device = 0xc002 ∨ device = 0xc004 ∨
     device = 0xc101 ∨ device = 0xc102 ∨ device = 0xc104 then
    { portNum := device &&& 0x7, bar := 0, barFlag := 0, offset := 0x100, RegShift := 0 }
  else if device = 0xc201 ∨ device = 0xc202 ∨ device = 0xc204 ∨
     device = 0xc301 ∨ device = 0xc302 ∨ device = 0xc304 then
    { portNum := device &&& 0x7, bar := 0, barFlag := 0, offset := 0x400, RegShift := 2 }
  else if device = 0x1680 ∨ device = 0x2052 then
    { portNum := 2, bar := 2, barFlag := 1, offset := 0x0, RegShift := 0 }
  else if device = 0x1681 then
    { portNum := 1, bar := 2, barFlag := 1, offset := 0x0, RegShift := 0 }
  else
    { portNum := 0, bar := 0, barFlag := 0, offset := 0x100, RegShift := 0 }

/-- The label `failure_cleanup` of `adv_pci_add_one`. -/
def failure_cleanup (err : Int) (st : State) : Option (Int × State) :=
  (adv_pci_remove_one st).map (fun s => (err, s))

/-- The loop `for (i = 0; i < portNum; i++)` of `adv_pci_add_one` with what follows
it, entered at the test of iteration `i` with `n = portNum - i` iterations to go. The
local `card` is the driver data of the state, set before the loop. -/
def add_loop (hdr : Sja1000Header) (env : Env) (barFlag offset : Nat) :
    Nat → Nat → Nat → State → Option (Int × State)
  | 0, _, _, st => some (0, st)
  | n + 1, i, bar, st =>
    match st.drvdata with
    | none => none
    | some card =>
      if env.alloc_sja1000dev i = false then
        failure_cleanup (- ENOMEM)
          { st with trace := st.trace ++ [Event.alloc_sja1000dev none] }
      else
        let dev := st.devs.length
        let tr1 := st.trace ++ [Event.alloc_sja1000dev (some dev)]
        let card1 := { card with net_dev := card.net_dev.set i (some dev) }
        let base := env.pci_iomap i bar
        let tr2 := tr1 ++ [Event.pci_iomap bar 128 base]
        let priv0 : sja1000_priv :=
          { reg_base := base + ((offset * i) % 2 ^ 32 : Nat)
            irq_flags := IRQF_SHARED, freq := 0, ocr := 0, cdr := 0 }
        let tr3 := (adv_pci_reset hdr env card1 priv0 tr2).2
        let priv1 : sja1000_priv :=
          { priv0 with freq := ADV_PCI_CAN_CLOCK, ocr := ADV_PCI_OCR hdr,
                       cdr := ADV_PCI_CDR hdr }
        let ndev : net_device := { irq := env.irq, dev_id := i, priv := priv1 }
        -- Register SJA1000 device
        let err := env.register_sja1000dev i
        let tr4 := tr3 ++ [Event.register_sja1000dev dev err]
        let st4 : State := { drvdata := some card1, devs := st.devs ++ [ndev], trace := tr4 }
        if err ≠ 0 then
          failure_cleanup err
            { st4 with trace := tr4 ++ [Event.free_sja1000dev dev] }
        else
          add_loop hdr env barFlag offset n (i + 1)
            (if barFlag ≠ 0 then bar + 1 else bar) st4

/-- The function `adv_pci_add_one` on a device without driver data: its return value
and the state it leaves. -/
def adv_pci_add_one (hdr : Sja1000Header) (env : Env) : Option (Int × State) :=
  let tr0 := [Event.pci_enable_device env.pci_enable_device]
  if env.pci_enable_device ≠ 0 then
    some (- ENODEV, { drvdata := none, devs := [], trace := tr0 })
  else
    -- Identifying card
    let t := identify env.device
    -- Allocating card structures to hold addresses, ...
    if env.kzalloc = false then
      some (- ENOMEM, { drvdata := none, devs := [], trace := tr0 ++ [Event.kzalloc false] })
    else
      let card : adv_pci_card :=
        { channels := t.portNum
          net_dev := List.replicate MAX_NO_OF_CHANNELS none
          RegShift := t.RegShift }
      add_loop hdr env t.barFlag t.offset t.portNum 0 t.bar
        { drvdata := some card, devs := []
          trace := tr0 ++ [Event.kzalloc true, Event.pci_set_drvdata true] }

/-! ## Observations on a history of calls -/

/-- The effect of one call on the list of registered channel handles. -/
def reg_step (regd : List Nat) : Event → List Nat
  | Event.register_sja1000dev dev ret => if ret = 0 then dev :: regd else regd
  | Event.unregister_sja1000dev dev => regd.filter (fun d => d ≠ dev)
  | _ => regd

/-- The channel handles registered with the SJA1000 core after a history of calls,
most recent first. -/
def registered (tr : List Event) : List Nat := tr.foldl reg_step []

/-- The effect of one call on the list of mapped register windows. -/
def map_step (wins : List Int) : Event → List Int
  | Event.pci_iomap _ _ addr => addr :: wins
  | Event.pci_iounmap addr => wins.erase addr
  | _ => wins

/-- The register windows mapped and not unmapped after a history of calls. -/
def mapped_windows (tr : List Event) : List Int := tr.foldl map_step []

/-- An environment in which every call succeeds and the clock divider reads back as
PeliCAN, for the card with the given id. -/
def env_ok (device : Nat) : Env :=
  { device := device
    irq := 11
    pci_enable_device := 0
    kzalloc := true
    alloc_sja1000dev := fun _ => true
    pci_iomap := fun _ bar => 0x10000 * (bar + 1)
    ioread8 := fun _ _ => 0x80
    register_sja1000dev := fun _ => 0 }

/-- The card of `env_ok` on which the clock divider reads back as 0: the readback in
`adv_pci_reset` differs from the value written. -/
def env_readback_mismatch : Env :=
  { env_ok 0xc001 with ioread8 := fun _ _ => 0 }

/-- The card of `env_ok` whose only channel is rejected by the registration sink with
the error -16. -/
def env_register_rejects : Env :=
  { env_ok 0xc001 with register_sja1000dev := fun _ => -16 }

/-- The card of `env_ok` with id 0xc204 on which the registration of channel 2 is
rejected with the error -16. -/
def env_third_rejected : Env :=
  { env_ok 0xc204 with register_sja1000dev := fun i => if i = 2 then -16 else 0 }

/-- The state that a probe of the two-channel card 0xc202 leaves when every call
succeeds (`env_ok`). -/
def state_after_probe_c202 : State :=
  { drvdata := some { channels := 2, net_dev := [some 0, some 1, none, none], RegShift := 2 }
    devs := [{ irq := 11, dev_id := 0
               priv := { reg_base := 0x10000, irq_flags := 128, freq := 8000000
                         ocr := 248, cdr := 64 } },
             { irq := 11, dev_id := 1
               priv := { reg_base := 0x10400, irq_flags := 128, freq := 8000000
                         ocr := 248, cdr := 64 } }]
    trace := [Event.pci_enable_device 0, Event.kzalloc true, Event.pci_set_drvdata true,
              Event.alloc_sja1000dev (some 0), Event.pci_iomap 0 128 0x10000,
              Event.iowrite8 1 0x10000, Event.iowrite8 128 0x1007c,
              Event.ioread8 0x1007c 128, Event.register_sja1000dev 0 0,
              Event.alloc_sja1000dev (some 1), Event.pci_iomap 0 128 0x10000,
              Event.iowrite8 1 0x10400, Event.iowrite8 128 0x1047c,
              Event.ioread8 0x1047c 128, Event.register_sja1000dev 1 0] }

/-! ## Definitions used in the proofs -/

/-- Whether a call is a `pci_iomap`. -/
def is_iomap : Event → Bool
  | Event.pci_iomap _ _ _ => true
  | _ => false

/-- Whether a call is a `pci_iounmap`. -/
def is_iounmap : Event → Bool
  | Event.pci_iounmap _ => true
  | _ => false

/-- The number of `pci_iomap` calls in a history. -/
def iomap_calls (tr : List Event) : Nat := tr.countP is_iomap

/-- The number of `pci_iounmap` calls in a history. -/
def iounmap_calls (tr : List Event) : Nat := tr.countP is_iounmap

/-- The array `card->net_dev` once the channels below `i` hold their handles: entry
`j` is the handle `j` for `j < i` and NULL from `i` on. -/
def net_dev_upto (i : Nat) : List (Option Nat) :=
  (List.range MAX_NO_OF_CHANNELS).map (fun j => if j < i then some j else none)

/-- The value of `bar` at the start of iteration `i` of the loop of
`adv_pci_add_one`: the region of channel `i`. -/
def chan_region (t : Topology) (i : Nat) : Nat :=
  if t.barFlag ≠ 0 then t.bar + i else t.bar

/-- What holds at the test of iteration `i` of the loop of `adv_pci_add_one` when
every earlier iteration allocated and registered its handle. -/
structure LoopInv (t : Topology) (i : Nat) (st : State) : Prop where
  card : st.drvdata =
    some { channels := t.portNum, net_dev := net_dev_upto i, RegShift := t.RegShift }
  len : st.devs.length = i
  regd : registered st.trace = (List.range i).reverse
  regev : ∀ j < i, Event.register_sja1000dev j 0 ∈ st.trace

/-- The state in which iteration `i` of the loop of `adv_pci_add_one` ends when the
handle is allocated and registered. -/
def next_state (hdr : Sja1000Header) (env : Env) (offset i bar : Nat)
    (card : adv_pci_card) (st : State) : State :=
  let card1 : adv_pci_card := { card with net_dev := card.net_dev.set i (some st.devs.length) }
  let priv0 : sja1000_priv :=
    { reg_base := env.pci_iomap i bar + ((offset * i) % 2 ^ 32 : Nat)
      irq_flags := IRQF_SHARED, freq := 0, ocr := 0, cdr := 0 }
  { drvdata := some card1
    devs := st.devs ++
      [{ irq := env.irq, dev_id := i
         priv := { priv0 with freq := ADV_PCI_CAN_CLOCK, ocr := ADV_PCI_OCR hdr,
                              cdr := ADV_PCI_CDR hdr } }]
    trace := (adv_pci_reset hdr env card1 priv0
        (st.trace ++ [Event.alloc_sja1000dev (some st.devs.length),
                      Event.pci_iomap bar 128 (env.pci_iomap i bar)])).2 ++
      [Event.register_sja1000dev st.devs.length (env.register_sja1000dev i)] }

/-- The calls of the loop of `adv_pci_remove_one` on a card. -/
def remove_events (card : adv_pci_card) : List Event :=
  (List.range card.channels).foldl (remove_channel card) []

/-- The state in which `adv_pci_add_one` enters its loop. -/
def loop_entry (env : Env) : State :=
  { drvdata := some { channels := (identify env.device).portNum
                      net_dev := List.replicate MAX_NO_OF_CHANNELS none
                      RegShift := (identify env.device).RegShift }
    devs := []
    trace := [Event.pci_enable_device env.pci_enable_device, Event.kzalloc true,
              Event.pci_set_drvdata true] }

/-! ## The loop of the probe and the rollback -/

theorem adv_pci_reset_trace (hdr : Sja1000Header) (env : Env)
    (card : adv_pci_card) (priv : sja1000_priv) (tr : List Event) :
    (adv_pci_reset hdr env card priv tr).2 =
      (adv_pci_read_reg env card priv hdr.SJA1000_CDR
        (adv_pci_write_reg card priv hdr.SJA1000_CDR hdr.CDR_PELICAN
          (adv_pci_write_reg card priv hdr.SJA1000_MOD 1 tr))).2 := by
  simp only [adv_pci_reset]
  split <;> rfl

theorem registered_append (tr es : List Event) :
    registered (tr ++ es) = es.foldl reg_step (registered tr) := by
  simp [registered, List.foldl_append]

theorem net_dev_upto_set (i : Nat) (hi : i < MAX_NO_OF_CHANNELS) :
    (net_dev_upto i).set i (some i) = net_dev_upto (i + 1) := by
  unfold MAX_NO_OF_CHANNELS at hi
  interval_cases i <;> decide

theorem add_loop_succ (hdr : Sja1000Header) (env : Env) (barFlag offset n i bar : Nat)
    (card : adv_pci_card) (st : State) (hc : st.drvdata = some card)
    (ha : env.alloc_sja1000dev i = true) (hr : env.register_sja1000dev i = 0) :
    add_loop hdr env barFlag offset (n + 1) i bar st =
      add_loop hdr env barFlag offset n (i + 1) (if barFlag ≠ 0 then bar + 1 else bar)
        (next_state hdr env offset i bar card st) := by
  rw [add_loop]
  simp [hc, ha, hr, next_state]

theorem add_loop_alloc_fails (hdr : Sja1000Header) (env : Env) (barFlag offset n i bar : Nat)
    (card : adv_pci_card) (st : State) (hc : st.drvdata = some card)
    (ha : env.alloc_sja1000dev i = false) :
    add_loop hdr env barFlag offset (n + 1) i bar st =
      failure_cleanup (- ENOMEM)
        { st with trace := st.trace ++ [Event.alloc_sja1000dev none] } := by
  rw [add_loop]
  simp [hc, ha]

theorem add_loop_register_fails (hdr : Sja1000Header) (env : Env)
    (barFlag offset n i bar : Nat)
    (card : adv_pci_card) (st : State) (hc : st.drvdata = some card)
    (ha : env.alloc_sja1000dev i = true) (hr : env.register_sja1000dev i ≠ 0) :
    add_loop hdr env barFlag offset (n + 1) i bar st =
      failure_cleanup (env.register_sja1000dev i)
        { next_state hdr env offset i bar card st with
          trace := (next_state hdr env offset i bar card st).trace ++
            [Event.free_sja1000dev st.devs.length] } := by
  rw [add_loop]
  simp [hc, ha, hr, next_state]

theorem next_state_inv (hdr : Sja1000Header) (env : Env) (t : Topology) (i bar : Nat)
    (st : State) (hinv : LoopInv t i st) (hi : i < MAX_NO_OF_CHANNELS)
    (hr : env.register_sja1000dev i = 0) :
    LoopInv t (i + 1) (next_state hdr env t.offset i bar
      { channels := t.portNum, net_dev := net_dev_upto i, RegShift := t.RegShift } st) := by
  obtain ⟨hc, hl, hrg, hev⟩ := hinv
  refine ⟨?_, ?_, ?_, ?_⟩
  · simp [next_state, hl, net_dev_upto_set i hi]
  · simp [next_state, hl]
  · simp [next_state, adv_pci_reset_trace, adv_pci_read_reg, adv_pci_write_reg,
      registered_append, reg_step, hrg, hr, hl, List.range_succ]
  · intro j hj
    simp only [next_state, hr, hl, List.mem_append, List.mem_singleton]
    rcases Nat.lt_succ_iff_lt_or_eq.mp hj with h | h
    · left
      rw [adv_pci_reset_trace]
      simp [adv_pci_read_reg, adv_pci_write_reg, hev j h]
    · right
      rw [h]

theorem add_loop_reach (hdr : Sja1000Header) (env : Env) (t : Topology) (st0 : State)
    (h0 : LoopInv t 0 st0) :
    ∀ k, k ≤ MAX_NO_OF_CHANNELS →
      (∀ j < k, env.alloc_sja1000dev j = true ∧ env.register_sja1000dev j = 0) →
      ∃ st, LoopInv t k st ∧
        ∀ n, add_loop hdr env t.barFlag t.offset (k + n) 0 t.bar st0 =
          add_loop hdr env t.barFlag t.offset n k (chan_region t k) st := by
  intro k
  induction k with
  | zero =>
    intro _ _
    exact ⟨st0, h0, fun n => by simp [chan_region]⟩
  | succ k ih =>
    intro hk hok
    obtain ⟨st, hinv, hrun⟩ := ih (by omega) (fun j hj => hok j (by omega))
    have hk4 : k < MAX_NO_OF_CHANNELS := by omega
    obtain ⟨ha, hr⟩ := hok k (by omega)
    refine ⟨_, next_state_inv hdr env t k (chan_region t k) st hinv hk4 hr, fun n => ?_⟩
    have hbar : (if t.barFlag ≠ 0 then chan_region t k + 1 else chan_region t k) =
        chan_region t (k + 1) := by
      unfold chan_region
      split <;> simp [Nat.add_assoc]
    rw [show k + 1 + n = k + (n + 1) by omega, hrun (n + 1),
      add_loop_succ hdr env t.barFlag t.offset n k (chan_region t k) _ st hinv.card ha hr,
      hbar]

theorem remove_channel_append (card : adv_pci_card) (tr : List Event) (i : Nat) :
    remove_channel card tr i = tr ++ remove_channel card [] i := by
  unfold remove_channel
  split <;> simp

theorem foldl_remove_channel (card : adv_pci_card) (l : List Nat) :
    ∀ tr, l.foldl (remove_channel card) tr = tr ++ l.foldl (remove_channel card) [] := by
  induction l with
  | nil => intro tr; simp
  | cons j l ih =>
    intro tr
    rw [List.foldl_cons, List.foldl_cons, ih (remove_channel card tr j),
      ih (remove_channel card [] j), remove_channel_append card tr j, List.append_assoc]

theorem reg_step_remove_channel (card : adv_pci_card) (j : Nat) (regd : List Nat) :
    (remove_channel card [] j).foldl reg_step regd =
      regd.filter (fun d => decide (card.net_dev.getD j none ≠ some d)) := by
  unfold remove_channel
  cases card.net_dev.getD j none with
  | none => simp
  | some d =>
    simp only [List.nil_append, List.foldl_cons, List.foldl_nil, reg_step]
    apply List.filter_congr
    intro x _
    by_cases hx : x = d
    · simp [hx]
    · simp [hx, Ne.symm hx]

theorem registered_cleanup (card : adv_pci_card) (l : List Nat) :
    ∀ regd : List Nat, (l.foldl (remove_channel card) []).foldl reg_step regd =
      regd.filter (fun d => decide (∀ j ∈ l, card.net_dev.getD j none ≠ some d)) := by
  induction l with
  | nil => intro regd; simp
  | cons j l ih =>
    intro regd
    rw [List.foldl_cons, foldl_remove_channel, List.foldl_append, ih,
      reg_step_remove_channel, List.filter_filter]
    apply List.filter_congr
    intro x _
    simp only [List.forall_mem_cons, Bool.decide_and, Bool.and_comm]

theorem getD_net_dev_upto (k j : Nat) :
    (net_dev_upto k).getD j none = if j < k ∧ j < MAX_NO_OF_CHANNELS then some j else none := by
  unfold net_dev_upto
  rw [List.getD_eq_getElem?_getD, List.getElem?_map]
  by_cases hj : j < MAX_NO_OF_CHANNELS
  · rw [List.getElem?_range hj]
    by_cases hk : j < k <;> simp [hj, hk]
  · rw [List.getElem?_eq_none (by simpa using hj)]
    simp [hj]

theorem adv_pci_remove_one_eq (st : State) (card : adv_pci_card)
    (hc : st.drvdata = some card) :
    adv_pci_remove_one st =
      some { drvdata := none, devs := st.devs
             trace := st.trace ++ (remove_events card ++
               [Event.kfree, Event.pci_disable_device, Event.pci_set_drvdata false]) } := by
  simp [adv_pci_remove_one, hc, remove_events, foldl_remove_channel _ _ st.trace]

theorem mem_remove_events (card : adv_pci_card) (j d : Nat) (hj : j < card.channels)
    (hd : card.net_dev.getD j none = some d) :
    Event.unregister_sja1000dev d ∈ remove_events card := by
  have key : ∀ l : List Nat, j ∈ l →
      Event.unregister_sja1000dev d ∈ l.foldl (remove_channel card) [] := by
    intro l
    induction l with
    | nil => intro h; simp at h
    | cons a l ih =>
      intro h
      rw [List.foldl_cons, foldl_remove_channel]
      rcases List.mem_cons.mp h with h | h
      · subst h
        apply List.mem_append_left
        unfold remove_channel
        rw [hd]
        simp
      · exact List.mem_append_right _ (ih h)
  exact key _ (List.mem_range.mpr hj)

theorem rollback_unregisters (t : Topology) (m : Nat) (st : State)
    (hm : m ≤ t.portNum) (hp : t.portNum ≤ MAX_NO_OF_CHANNELS)
    (hc : st.drvdata =
      some { channels := t.portNum, net_dev := net_dev_upto m, RegShift := t.RegShift })
    (hreg : ∀ d ∈ registered st.trace, d < m) (err : Int) :
    ∃ st', failure_cleanup err st = some (err, st') ∧ registered st'.trace = [] ∧
      (∀ e ∈ st.trace, e ∈ st'.trace) ∧
      ∀ j < m, Event.unregister_sja1000dev j ∈ st'.trace := by
  have hget : ∀ j < m, (net_dev_upto m).getD j none = some j := by
    intro j hj
    rw [getD_net_dev_upto, if_pos ⟨hj, by omega⟩]
  refine ⟨_, by rw [failure_cleanup, adv_pci_remove_one_eq st _ hc]; rfl, ?_, ?_, ?_⟩
  · show registered (st.trace ++ (remove_events _ ++ _)) = []
    simp only [registered_append, List.foldl_append, remove_events, registered_cleanup]
    simp only [List.foldl_cons, List.foldl_nil, reg_step, List.filter_eq_nil_iff]
    intro d hd
    have hdm := hreg d hd
    simp only [decide_eq_true_eq, not_forall]
    exact ⟨d, List.mem_range.mpr (by omega), fun h => h (hget d hdm)⟩
  · intro e he
    exact List.mem_append_left _ he
  · intro j hj
    exact List.mem_append_right _ (List.mem_append_left _
      (mem_remove_events _ j j (by show j < t.portNum; omega) (hget j hj)))

theorem identify_portNum_le (d : Nat) : (identify d).portNum ≤ MAX_NO_OF_CHANNELS := by
  unfold identify
  split_ifs with h1 h2 h3 h4
  · rcases h1 with h | h | h | h | h | h <;> subst h <;> decide
  · rcases h2 with h | h | h | h | h | h <;> subst h <;> decide
  · decide
  · decide
  · decide

theorem adv_pci_add_one_eq_loop (hdr : Sja1000Header) (env : Env)
    (hen : env.pci_enable_device = 0) (hkz : env.kzalloc = true) :
    adv_pci_add_one hdr env =
      add_loop hdr env (identify env.device).barFlag (identify env.device).offset
        (identify env.device).portNum 0 (identify env.device).bar (loop_entry env) := by
  simp [adv_pci_add_one, hen, hkz, loop_entry]

theorem loop_entry_inv (env : Env) : LoopInv (identify env.device) 0 (loop_entry env) :=
  ⟨rfl, rfl, rfl, fun j hj => absurd hj (Nat.not_lt_zero j)⟩

theorem mapped_windows_length (tr : List Event) :
    ∀ wins : List Int, iounmap_calls tr = 0 →
      (tr.foldl map_step wins).length = wins.length + iomap_calls tr := by
  induction tr with
  | nil => intro wins _; simp [iomap_calls]
  | cons e tr ih =>
    intro wins h
    have h' : is_iounmap e = false ∧ iounmap_calls tr = 0 := by
      simp only [iounmap_calls, List.countP_cons] at h ⊢
      cases he : is_iounmap e <;> simp_all
    rw [List.foldl_cons, ih _ h'.2]
    cases e <;> simp [map_step, iomap_calls, List.countP_cons, is_iomap, is_iounmap] at h' ⊢
    omega

theorem remove_events_calls (card : adv_pci_card) :
    iounmap_calls (remove_events card) = 0 ∧ iomap_calls (remove_events card) = 0 := by
  have key : ∀ l : List Nat, iounmap_calls (l.foldl (remove_channel card) []) = 0 ∧
      iomap_calls (l.foldl (remove_channel card) []) = 0 := by
    intro l
    induction l with
    | nil => simp [iounmap_calls, iomap_calls]
    | cons j l ih =>
      rw [List.foldl_cons, foldl_remove_channel]
      simp only [iounmap_calls, iomap_calls, List.countP_append] at ih ⊢
      rw [ih.1, ih.2]
      unfold remove_channel
      cases card.net_dev.getD j none <;> simp [is_iomap, is_iounmap]
  exact key _

theorem failure_cleanup_eq (err : Int) (st : State) (card : adv_pci_card)
    (hc : st.drvdata = some card) :
    failure_cleanup err st =
      some (err, { drvdata := none, devs := st.devs
                   trace := st.trace ++ (remove_events card ++
                     [Event.kfree, Event.pci_disable_device, Event.pci_set_drvdata false]) }) := by
  rw [failure_cleanup, adv_pci_remove_one_eq st card hc]
  rfl

theorem next_state_calls (hdr : Sja1000Header) (env : Env) (offset i bar : Nat)
    (card : adv_pci_card) (st : State) :
    iounmap_calls (next_state hdr env offset i bar card st).trace = iounmap_calls st.trace ∧
    iomap_calls (next_state hdr env offset i bar card st).trace = iomap_calls st.trace + 1 := by
  simp [next_state, adv_pci_reset_trace, adv_pci_read_reg, adv_pci_write_reg,
    iounmap_calls, iomap_calls, List.countP_append, List.countP_cons, is_iomap, is_iounmap]

theorem add_loop_calls (hdr : Sja1000Header) (env : Env) (barFlag offset : Nat) :
    ∀ (n i bar : Nat) (st : State) (r : Int × State),
      add_loop hdr env barFlag offset n i bar st = some r →
      iounmap_calls st.trace = 0 → iomap_calls st.trace = st.devs.length →
      iounmap_calls r.2.trace = 0 ∧ iomap_calls r.2.trace = r.2.devs.length := by
  intro n
  induction n with
  | zero =>
    intro i bar st r h h1 h2
    simp only [add_loop, Option.some.injEq] at h
    subst h
    exact ⟨h1, h2⟩
  | succ n ih =>
    intro i bar st r h h1 h2
    cases hc : st.drvdata with
    | none => simp [add_loop, hc] at h
    | some card =>
      by_cases ha : env.alloc_sja1000dev i = false
      · rw [add_loop_alloc_fails hdr env _ _ n i bar card st hc ha,
          failure_cleanup_eq (- ENOMEM)
            { st with trace := st.trace ++ [Event.alloc_sja1000dev none] } card hc,
          Option.some.injEq] at h
        subst h
        have hre := remove_events_calls card
        simp only [iounmap_calls, iomap_calls, List.countP_append] at h1 h2 hre ⊢
        simp [h1, h2, hre, is_iomap, is_iounmap]
      · have ha' : env.alloc_sja1000dev i = true := by simpa using ha
        have hns := next_state_calls hdr env offset i bar card st
        by_cases hr : env.register_sja1000dev i = 0
        · rw [add_loop_succ hdr env _ _ n i bar card st hc ha' hr] at h
          refine ih _ _ _ r h (by rw [hns.1, h1]) ?_
          rw [hns.2, h2]
          simp [next_state]
        · rw [add_loop_register_fails hdr env _ _ n i bar card st hc ha' hr,
            failure_cleanup_eq _ _ _ rfl, Option.some.injEq] at h
          subst h
          have hre := remove_events_calls
            { card with net_dev := card.net_dev.set i (some st.devs.length) }
          simp only [iounmap_calls, iomap_calls, List.countP_append] at h1 h2 hre hns ⊢
          simp [h1, h2, hre, hns, is_iomap, is_iounmap]
          simp [next_state]

theorem add_loop_total (hdr : Sja1000Header) (env : Env) (barFlag offset : Nat) :
    ∀ (n i bar : Nat) (st : State) (card : adv_pci_card), st.drvdata = some card →
      ∃ r, add_loop hdr env barFlag offset n i bar st = some r := by
  intro n
  induction n with
  | zero => intro i bar st card _; exact ⟨_, rfl⟩
  | succ n ih =>
    intro i bar st card hc
    by_cases ha : env.alloc_sja1000dev i = false
    · exact ⟨_, by rw [add_loop_alloc_fails hdr env _ _ n i bar card st hc ha,
        failure_cleanup_eq (- ENOMEM)
          { st with trace := st.trace ++ [Event.alloc_sja1000dev none] } card hc]⟩
    · have ha' : env.alloc_sja1000dev i = true := by simpa using ha
      by_cases hr : env.register_sja1000dev i = 0
      · rw [add_loop_succ hdr env _ _ n i bar card st hc ha' hr]
        exact ih _ _ _ _ rfl
      · exact ⟨_, by rw [add_loop_register_fails hdr env _ _ n i bar card st hc ha' hr,
          failure_cleanup_eq _ _ _ rfl]⟩

theorem add_loop_ok (hdr : Sja1000Header) (env : Env) (barFlag offset : Nat) :
    ∀ (n i bar : Nat) (st st' : State) (card : adv_pci_card),
      add_loop hdr env barFlag offset n i bar st = some (0, st') →
      st.drvdata = some card → st.devs.length = i →
      (∃ card', st'.drvdata = some card' ∧ card'.channels = card.channels ∧
        card'.RegShift = card.RegShift) ∧
      st'.devs.length = i + n := by
  intro n
  induction n with
  | zero =>
    intro i bar st st' card h hc hl
    simp only [add_loop, Option.some.injEq, Prod.mk.injEq, true_and] at h
    subst h
    exact ⟨⟨card, hc, rfl, rfl⟩, by omega⟩
  | succ n ih =>
    intro i bar st st' card h hc hl
    by_cases ha : env.alloc_sja1000dev i = false
    · rw [add_loop_alloc_fails hdr env _ _ n i bar card st hc ha,
        failure_cleanup_eq (- ENOMEM)
          { st with trace := st.trace ++ [Event.alloc_sja1000dev none] } card hc] at h
      simp [ENOMEM] at h
    · have ha' : env.alloc_sja1000dev i = true := by simpa using ha
      by_cases hr : env.register_sja1000dev i = 0
      · rw [add_loop_succ hdr env _ _ n i bar card st hc ha' hr] at h
        obtain ⟨⟨card', h1, h2, h3⟩, h4⟩ := ih (i + 1) _ _ st' _ h rfl
          (by simp [next_state, hl])
        exact ⟨⟨card', h1, h2, h3⟩, by omega⟩
      · rw [add_loop_register_fails hdr env _ _ n i bar card st hc ha' hr,
          failure_cleanup_eq _ _ _ rfl] at h
        simp at h
        exact absurd h.1 hr

theorem add_loop_devs (hdr : Sja1000Header) (env : Env) (barFlag offset : Nat) :
    ∀ (n i bar : Nat) (st : State) (r : Int × State),
      add_loop hdr env barFlag offset n i bar st = some r → st.devs.length = i →
      r.2.devs.length ≤ i + n ∧
      (∀ j < i, r.2.devs[j]? = st.devs[j]?) ∧
      ∀ j, i ≤ j → j < r.2.devs.length → ∃ d, r.2.devs[j]? = some d ∧
        d.priv.reg_base =
          env.pci_iomap j (if barFlag ≠ 0 then bar + (j - i) else bar) +
            ((offset * j % 2 ^ 32 : Nat) : Int) := by
  intro n
  induction n with
  | zero =>
    intro i bar st r h hl
    simp only [add_loop, Option.some.injEq] at h
    subst h
    exact ⟨by simp [hl], fun _ _ => rfl, fun j h1 h2 => by simp only [hl] at h2; omega⟩
  | succ n ih =>
    intro i bar st r h hl
    cases hc : st.drvdata with
    | none => simp [add_loop, hc] at h
    | some card =>
      have hdevs : (next_state hdr env offset i bar card st).devs = st.devs ++
          [{ irq := env.irq, dev_id := i
             priv := { reg_base := env.pci_iomap i bar + ((offset * i % 2 ^ 32 : Nat) : Int)
                       irq_flags := IRQF_SHARED, freq := ADV_PCI_CAN_CLOCK
                       ocr := ADV_PCI_OCR hdr, cdr := ADV_PCI_CDR hdr } }] := rfl
      have hi : (next_state hdr env offset i bar card st).devs[i]? = some
          { irq := env.irq, dev_id := i
            priv := { reg_base := env.pci_iomap i bar + ((offset * i % 2 ^ 32 : Nat) : Int)
                      irq_flags := IRQF_SHARED, freq := ADV_PCI_CAN_CLOCK
                      ocr := ADV_PCI_OCR hdr, cdr := ADV_PCI_CDR hdr } } := by
        rw [hdevs, ← hl, List.getElem?_concat_length]
      have hlen : (next_state hdr env offset i bar card st).devs.length = i + 1 := by
        rw [hdevs, List.length_append, hl]
        rfl
      by_cases ha : env.alloc_sja1000dev i = false
      · rw [add_loop_alloc_fails hdr env _ _ n i bar card st hc ha,
          failure_cleanup_eq (- ENOMEM)
            { st with trace := st.trace ++ [Event.alloc_sja1000dev none] } card hc,
          Option.some.injEq] at h
        subst h
        exact ⟨by simp [hl], fun _ _ => rfl, fun j h1 h2 => by simp only [hl] at h2; omega⟩
      · have ha' : env.alloc_sja1000dev i = true := by simpa using ha
        by_cases hr : env.register_sja1000dev i = 0
        · rw [add_loop_succ hdr env _ _ n i bar card st hc ha' hr] at h
          obtain ⟨h4, h5, h6⟩ := ih (i + 1) _ _ r h hlen
          refine ⟨by omega, ?_, ?_⟩
          · intro j hj
            rw [h5 j (by omega), hdevs, List.getElem?_append_left (by omega)]
          · intro j hj1 hj2
            rcases Nat.eq_or_lt_of_le hj1 with hji | hji
            · subst hji
              exact ⟨_, by rw [h5 i (by omega), hi], by simp⟩
            · obtain ⟨d, hd1, hd2⟩ := h6 j (by omega) hj2
              have hreg : (if barFlag ≠ 0 then
                  (if barFlag ≠ 0 then bar + 1 else bar) + (j - (i + 1))
                  else if barFlag ≠ 0 then bar + 1 else bar) =
                  (if barFlag ≠ 0 then bar + (j - i) else bar) := by
                split_ifs <;> omega
              rw [hreg] at hd2
              exact ⟨d, hd1, hd2⟩
        · rw [add_loop_register_fails hdr env _ _ n i bar card st hc ha' hr,
            failure_cleanup_eq _ _ _ rfl, Option.some.injEq] at h
          subst h
          refine ⟨by simp only [hlen]; omega, fun j hj => ?_, fun j h1 h2 => ?_⟩
          · show (next_state hdr env offset i bar card st).devs[j]? = _
            rw [hdevs, List.getElem?_append_left (by omega)]
          · simp only [hlen] at h2
            have hji : j = i := by omega
            subst hji
            exact ⟨_, hi, by simp⟩

theorem int_shl_of_no_overflow (r : Int) (s : Nat) (h0 : 0 ≤ r) (h1 : r * 2 ^ s < 2 ^ 31) :
    int_shl r s = r * 2 ^ s := by
  have h2 : 0 ≤ r * 2 ^ s := Int.mul_nonneg h0 (by positivity)
  unfold int_shl wrap_int32
  generalize r * 2 ^ s = x at h1 h2
  norm_num at h1 ⊢
  omega

theorem identify_offset_le (d : Nat) : (identify d).offset ≤ 0x400 := by
  unfold identify
  split_ifs <;> simp

theorem add_loop_cdr (hdr : Sja1000Header) (env : Env) (barFlag offset : Nat) :
    ∀ (n i bar : Nat) (st : State) (r : Int × State),
      add_loop hdr env barFlag offset n i bar st = some r →
      (∀ d ∈ st.devs, d.priv.cdr = ADV_PCI_CDR hdr) →
      ∀ d ∈ r.2.devs, d.priv.cdr = ADV_PCI_CDR hdr := by
  intro n
  induction n with
  | zero =>
    intro i bar st r h hst
    simp only [add_loop, Option.some.injEq] at h
    subst h
    exact hst
  | succ n ih =>
    intro i bar st r h hst
    cases hc : st.drvdata with
    | none => simp [add_loop, hc] at h
    | some card =>
      have hns : ∀ d ∈ (next_state hdr env offset i bar card st).devs,
          d.priv.cdr = ADV_PCI_CDR hdr := by
        intro d hd
        simp only [next_state, List.mem_append, List.mem_singleton] at hd
        rcases hd with hd | hd
        · exact hst d hd
        · rw [hd]
      by_cases ha : env.alloc_sja1000dev i = false
      · rw [add_loop_alloc_fails hdr env _ _ n i bar card st hc ha,
          failure_cleanup_eq (- ENOMEM)
            { st with trace := st.trace ++ [Event.alloc_sja1000dev none] } card hc,
          Option.some.injEq] at h
        subst h
        exact hst
      · have ha' : env.alloc_sja1000dev i = true := by simpa using ha
        by_cases hr : env.register_sja1000dev i = 0
        · rw [add_loop_succ hdr env _ _ n i bar card st hc ha' hr] at h
          exact ih _ _ _ r h hns
        · rw [add_loop_register_fails hdr env _ _ n i bar card st hc ha' hr,
            failure_cleanup_eq _ _ _ rfl, Option.some.injEq] at h
          subst h
          exact hns

theorem adv_pci_add_one_cdr (hdr : Sja1000Header) (env : Env) (err : Int) (st : State)
    (h : adv_pci_add_one hdr env = some (err, st)) :
    ∀ d ∈ st.devs, d.priv.cdr = ADV_PCI_CDR hdr := by
  by_cases hen : env.pci_enable_device = 0
  · by_cases hkz : env.kzalloc = true
    · rw [adv_pci_add_one_eq_loop hdr env hen hkz] at h
      exact add_loop_cdr hdr env _ _ _ _ _ _ _ h
        (fun d hd => absurd hd (List.not_mem_nil d))
    · have hkz' : env.kzalloc = false := by simpa using hkz
      simp only [adv_pci_add_one, ne_eq, hen, not_true_eq_false, if_false, hkz', if_true,
        Option.some.injEq, Prod.mk.injEq] at h
      obtain ⟨-, h2⟩ := h
      subst h2
      exact fun d hd => absurd hd (List.not_mem_nil d)
  · simp only [adv_pci_add_one, ne_eq, hen, not_false_eq_true, if_true, Option.some.injEq,
      Prod.mk.injEq] at h
    obtain ⟨-, h2⟩ := h
    subst h2
    exact fun d hd => absurd hd (List.not_mem_nil d)

/-! ## Topology -/

/-- C6: the switch of `adv_pci_add_one` is a function of the device id alone. For the
six ids 0xc0xx and 0xc1xx it gives the low 3 bits of the id as channel count, region 0
without a region per channel, stride 0x100 and shift 0; for the six ids 0xc2xx and
0xc3xx the same with stride 0x400 and shift 2; for 0x1680 and 0x2052 two channels and
for 0x1681 one channel, with one region per channel from region 2 on, stride 0 and
shift 0. In all these cases the channel count is between 1 and `MAX_NO_OF_CHANNELS`. -/
theorem C6_topology_of_switch :
    (∀ d ∈ [0xc001, 0xc002, 0xc004, 0xc101, 0xc102, 0xc104],
      identify d =
        { portNum := d &&& 0x7, bar := 0, barFlag := 0, offset := 0x100, RegShift := 0 }) ∧
    (∀ d ∈ [0xc201, 0xc202, 0xc204, 0xc301, 0xc302, 0xc304],
      identify d =
        { portNum := d &&& 0x7, bar := 0, barFlag := 0, offset := 0x400, RegShift := 2 }) ∧
    (∀ d ∈ [0x1680, 0x2052],
      identify d =
        { portNum := 2, bar := 2, barFlag := 1, offset := 0, RegShift := 0 }) ∧
    identify 0x1681 =
        { portNum := 1, bar := 2, barFlag := 1, offset := 0, RegShift := 0 } ∧
    (∀ d ∈ [0xc001, 0xc002, 0xc004, 0xc101, 0xc102, 0xc104,
            0xc201, 0xc202, 0xc204, 0xc301, 0xc302, 0xc304, 0x1680, 0x2052, 0x1681],
      1 ≤ (identify d).portNum ∧ (identify d).portNum ≤ MAX_NO_OF_CHANNELS) := by
  decide

/-- C6 at the four-channel card 0xc104. -/
theorem C6_topology_of_switch_witness :
    0xc104 ∈ [0xc001, 0xc002, 0xc004, 0xc101, 0xc102, 0xc104] ∧
    identify 0xc104 =
      { portNum := 4, bar := 0, barFlag := 0, offset := 0x100, RegShift := 0 } :=
  ⟨by decide, C6_topology_of_switch.1 0xc104 (by decide)⟩

/-- C8, as stated, fails: the id 0xc204 resolves to 4 channels, which is neither 3 nor
within 1..3. -/
theorem C8_counterexample :
    (identify 0xc204).portNum = 4 ∧
    ¬ ((identify 0xc204).portNum ≤ 3) ∧ (identify 0xc204).portNum ≠ 3 := by
  decide

/-- C10, evaluated at the listed id 0x3680: the id is in `adv_pci_tbl`, the switch has
no case for it and leaves the channel count 0, and a probe in which every call
succeeds returns 0 having allocated no channel handle and registered nothing. -/
theorem C10_listed_id_0x3680_has_no_channel :
    0x3680 ∈ adv_pci_tbl ∧
    (identify 0x3680).portNum = 0 ∧
    adv_pci_add_one sja1000_h (env_ok 0x3680) =
      some (0, { drvdata := some { channels := 0, net_dev := [none, none, none, none],
                                   RegShift := 0 }
                 devs := []
                 trace := [Event.pci_enable_device 0, Event.kzalloc true,
                           Event.pci_set_drvdata true] }) := by
  decide

/-! ## Probe of an unrecognised id -/

/-- C1, as stated, fails at the id 0x9999 with every call succeeding: the probe
returns 0, and it has allocated a card context and stored it as driver data. -/
theorem C1_counterexample :
    adv_pci_add_one sja1000_h (env_ok 0x9999) =
      some (0, { drvdata := some { channels := 0, net_dev := [none, none, none, none],
                                   RegShift := 0 }
                 devs := []
                 trace := [Event.pci_enable_device 0, Event.kzalloc true,
                           Event.pci_set_drvdata true] }) := by
  decide

/-- C1, amended: for every device id outside `adv_pci_tbl` (so outside the switch),
when enabling the device and allocating the card succeed, the probe returns 0 with a
card context of zero channels as driver data; it allocates no channel handle, maps no
window and registers no channel. -/
theorem C1_unlisted_id_probes_to_empty_card (hdr : Sja1000Header) (env : Env)
    (hid : env.device ∉ adv_pci_tbl) (hen : env.pci_enable_device = 0)
    (hkz : env.kzalloc = true) :
    adv_pci_add_one hdr env =
      some (0, { drvdata := some { channels := 0, net_dev := [none, none, none, none],
                                   RegShift := 0 }
                 devs := []
                 trace := [Event.pci_enable_device 0, Event.kzalloc true,
                           Event.pci_set_drvdata true] }) := by
  have hsw : identify env.device =
      { portNum := 0, bar := 0, barFlag := 0, offset := 0x100, RegShift := 0 } := by
    simp only [adv_pci_tbl, List.mem_cons, List.mem_singleton, List.not_mem_nil,
      not_or, or_false] at hid
    simp [identify, hid]
  simp [adv_pci_add_one, hen, hkz, hsw, add_loop, MAX_NO_OF_CHANNELS, List.replicate]

/-- C1 amended, at the id 0x9999. -/
theorem C1_unlisted_id_probes_to_empty_card_witness :
    (env_ok 0x9999).device ∉ adv_pci_tbl ∧ (env_ok 0x9999).pci_enable_device = 0 ∧
    (env_ok 0x9999).kzalloc = true ∧
    adv_pci_add_one sja1000_h (env_ok 0x9999) =
      some (0, { drvdata := some { channels := 0, net_dev := [none, none, none, none],
                                   RegShift := 0 }
                 devs := []
                 trace := [Event.pci_enable_device 0, Event.kzalloc true,
                           Event.pci_set_drvdata true] }) :=
  ⟨by decide, rfl, rfl,
    C1_unlisted_id_probes_to_empty_card sja1000_h (env_ok 0x9999) (by decide) rfl rfl⟩

/-! ## Reset -/

/-- C9, as stated, fails: on the header values the byte that `adv_pci_reset` writes to
the clock divider is 0x80, in which the CBP bit is clear; it is not the PeliCAN bit
together with `ADV_PCI_CDR`. -/
theorem C9_counterexample :
    (adv_pci_reset sja1000_h (env_ok 0xc001)
        { channels := 1, net_dev := [some 0, none, none, none], RegShift := 0 }
        { reg_base := 0x10000, irq_flags := IRQF_SHARED, freq := 0, ocr := 0, cdr := 0 }
        []).2 =
      [Event.iowrite8 1 0x10000, Event.iowrite8 0x80 0x1001f, Event.ioread8 0x1001f 0x80] ∧
    0x80 &&& sja1000_h.CDR_CBP = 0 ∧
    0x80 ≠ sja1000_h.CDR_PELICAN ||| ADV_PCI_CDR sja1000_h := by
  decide

/-- C9, amended: `adv_pci_reset` first writes 1 to the mode register, then writes
`CDR_PELICAN` alone to the clock-divider register, then reads the clock-divider
register, and returns `-EIO` when the byte read differs from `CDR_PELICAN` and 0
otherwise; on the header values `CDR_PELICAN` does not contain the CBP bit. The value
`ADV_PCI_CDR` (CBP) is what the probe stores in `priv->cdr` of every channel handle
it builds. -/
theorem C9_reset_writes_pelican_only (hdr : Sja1000Header) (env : Env)
    (card : adv_pci_card) (priv : sja1000_priv) (tr : List Event) :
    adv_pci_reset hdr env card priv tr =
      (if env.ioread8
            (tr ++ [Event.iowrite8 1 (priv.reg_base + int_shl hdr.SJA1000_MOD card.RegShift),
                    Event.iowrite8 (hdr.CDR_PELICAN % 256)
                      (priv.reg_base + int_shl hdr.SJA1000_CDR card.RegShift)])
            (priv.reg_base + int_shl hdr.SJA1000_CDR card.RegShift) % 256 = hdr.CDR_PELICAN
        then 0 else - EIO,
       tr ++ [Event.iowrite8 1 (priv.reg_base + int_shl hdr.SJA1000_MOD card.RegShift),
              Event.iowrite8 (hdr.CDR_PELICAN % 256)
                (priv.reg_base + int_shl hdr.SJA1000_CDR card.RegShift),
              Event.ioread8 (priv.reg_base + int_shl hdr.SJA1000_CDR card.RegShift)
                (env.ioread8
                  (tr ++ [Event.iowrite8 1
                            (priv.reg_base + int_shl hdr.SJA1000_MOD card.RegShift),
                          Event.iowrite8 (hdr.CDR_PELICAN % 256)
                            (priv.reg_base + int_shl hdr.SJA1000_CDR card.RegShift)])
                  (priv.reg_base + int_shl hdr.SJA1000_CDR card.RegShift) % 256)]) ∧
    sja1000_h.CDR_PELICAN &&& sja1000_h.CDR_CBP = 0 ∧
    ∀ (penv : Env) (err : Int) (st : State),
      adv_pci_add_one hdr penv = some (err, st) →
      ∀ d ∈ st.devs, d.priv.cdr = ADV_PCI_CDR hdr ∧ ADV_PCI_CDR hdr = hdr.CDR_CBP := by
  refine ⟨?_, by decide, fun penv err st h d hd =>
    ⟨adv_pci_add_one_cdr hdr penv err st h d hd, rfl⟩⟩
  unfold adv_pci_reset adv_pci_read_reg adv_pci_write_reg
  by_cases h : env.ioread8
      (tr ++ [Event.iowrite8 1 (priv.reg_base + int_shl hdr.SJA1000_MOD card.RegShift),
              Event.iowrite8 (hdr.CDR_PELICAN % 256)
                (priv.reg_base + int_shl hdr.SJA1000_CDR card.RegShift)])
      (priv.reg_base + int_shl hdr.SJA1000_CDR card.RegShift) % 256 = hdr.CDR_PELICAN
  · simp [h]
  · simp [h]

/-- C9 amended, at the two-channel card 0xc202 of `env_ok`: the reset of channel 1
writes 1 and then 0x80 and returns 0, and both handles carry `cdr = 0x40`, the CBP
bit. -/
theorem C9_reset_writes_pelican_only_witness :
    adv_pci_add_one sja1000_h (env_ok 0xc202) = some (0, state_after_probe_c202) ∧
    adv_pci_reset sja1000_h (env_ok 0xc202)
        { channels := 2, net_dev := [some 0, some 1, none, none], RegShift := 2 }
        { reg_base := 0x10400, irq_flags := IRQF_SHARED, freq := 0, ocr := 0, cdr := 0 }
        [] =
      (0, [Event.iowrite8 1 0x10400, Event.iowrite8 0x80 0x1047c,
           Event.ioread8 0x1047c 0x80]) ∧
    ∀ d ∈ state_after_probe_c202.devs, d.priv.cdr = 0x40 := by
  obtain ⟨h1, -, h3⟩ := C9_reset_writes_pelican_only sja1000_h (env_ok 0xc202)
    { channels := 2, net_dev := [some 0, some 1, none, none], RegShift := 2 }
    { reg_base := 0x10400, irq_flags := IRQF_SHARED, freq := 0, ocr := 0, cdr := 0 } []
  have hp : adv_pci_add_one sja1000_h (env_ok 0xc202) =
      some (0, state_after_probe_c202) := by decide
  refine ⟨hp, ?_, fun d hd => (h3 (env_ok 0xc202) 0 state_after_probe_c202 hp d hd).1⟩
  rw [h1]
  decide

/-- C2, evaluated at a one-channel card whose clock divider reads back as 0:
`adv_pci_reset` returns `-EIO` on the channel, and the probe all the same submits the
channel to `register_sja1000dev` and returns 0. -/
theorem C2_mismatch_is_registered :
    (adv_pci_reset sja1000_h env_readback_mismatch
        { channels := 1, net_dev := [some 0, none, none, none], RegShift := 0 }
        { reg_base := 0x10000, irq_flags := IRQF_SHARED, freq := 0, ocr := 0, cdr := 0 }
        [Event.pci_enable_device 0, Event.kzalloc true, Event.pci_set_drvdata true,
         Event.alloc_sja1000dev (some 0), Event.pci_iomap 0 128 0x10000]).1 = - EIO ∧
    (adv_pci_add_one sja1000_h env_readback_mismatch).map (fun r => (r.1, r.2.trace)) =
      some (0, [Event.pci_enable_device 0, Event.kzalloc true, Event.pci_set_drvdata true,
                Event.alloc_sja1000dev (some 0), Event.pci_iomap 0 128 0x10000,
                Event.iowrite8 1 0x10000, Event.iowrite8 0x80 0x1001f,
                Event.ioread8 0x1001f 0,
                Event.register_sja1000dev 0 0]) := by
  decide

/-- C3, evaluated at a one-channel card whose registration is rejected: after the
rejection the handle is freed, and the rollback through `adv_pci_remove_one` then
calls `unregister_sja1000dev` on the same handle and frees it a second time. -/
theorem C3_rejected_channel_unregistered_and_freed_twice :
    (adv_pci_add_one sja1000_h env_register_rejects).map (fun r => (r.1, r.2.trace)) =
      some (-16, [Event.pci_enable_device 0, Event.kzalloc true, Event.pci_set_drvdata true,
                  Event.alloc_sja1000dev (some 0), Event.pci_iomap 0 128 0x10000,
                  Event.iowrite8 1 0x10000, Event.iowrite8 0x80 0x1001f,
                  Event.ioread8 0x1001f 0x80,
                  Event.register_sja1000dev 0 (-16),
                  Event.free_sja1000dev 0,
                  Event.unregister_sja1000dev 0,
                  Event.free_sja1000dev 0,
                  Event.kfree, Event.pci_disable_device, Event.pci_set_drvdata false]) := by
  decide

/-! ## Rollback of a failed probe -/

/-- C4: when channel `k` of a card is the first whose handle allocation or registration
fails (enabling and the card allocation having succeeded), the probe returns the error
of the failing step, `-ENOMEM` for the allocation and the code of
`register_sja1000dev` for the registration; every channel below `k` was registered
and has been unregistered, and no channel remains registered. -/
theorem C4_failed_channel_rolls_back (hdr : Sja1000Header) (env : Env) (k : Nat)
    (hk : k < (identify env.device).portNum)
    (hen : env.pci_enable_device = 0) (hkz : env.kzalloc = true)
    (hprev : ∀ j < k, env.alloc_sja1000dev j = true ∧ env.register_sja1000dev j = 0)
    (hfail : env.alloc_sja1000dev k = false ∨ env.register_sja1000dev k ≠ 0) :
    ∃ st, adv_pci_add_one hdr env =
        some (if env.alloc_sja1000dev k = false then - ENOMEM
              else env.register_sja1000dev k, st) ∧
      (∀ j < k, Event.register_sja1000dev j 0 ∈ st.trace ∧
        Event.unregister_sja1000dev j ∈ st.trace) ∧
      registered st.trace = [] := by
  have hp := identify_portNum_le env.device
  obtain ⟨st, hinv, hrun⟩ := add_loop_reach hdr env (identify env.device) (loop_entry env)
    (loop_entry_inv env) k (by omega) hprev
  obtain ⟨n, hn⟩ : ∃ n, (identify env.device).portNum = k + (n + 1) :=
    ⟨(identify env.device).portNum - k - 1, by omega⟩
  rw [adv_pci_add_one_eq_loop hdr env hen hkz, hn, hrun (n + 1)]
  by_cases ha : env.alloc_sja1000dev k = false
  · rw [add_loop_alloc_fails hdr env _ _ n k _ _ st hinv.card ha, if_pos ha]
    obtain ⟨st', h1, h2, h3, h4⟩ := rollback_unregisters (identify env.device) k
      { st with trace := st.trace ++ [Event.alloc_sja1000dev none] } (by omega) hp
      hinv.card
      (by
        intro d hd
        simp only [registered_append, List.foldl_cons, List.foldl_nil, reg_step,
          hinv.regd, List.mem_reverse, List.mem_range] at hd
        exact hd)
      (- ENOMEM)
    exact ⟨st', h1, fun j hj =>
      ⟨h3 _ (List.mem_append_left _ (hinv.regev j hj)), h4 j hj⟩, h2⟩
  · have ha' : env.alloc_sja1000dev k = true := by simpa using ha
    have hr : env.register_sja1000dev k ≠ 0 := by
      rcases hfail with h | h
      · exact absurd h ha
      · exact h
    rw [add_loop_register_fails hdr env _ _ n k _ _ st hinv.card ha' hr, if_neg ha]
    obtain ⟨st', h1, h2, h3, h4⟩ := rollback_unregisters (identify env.device) (k + 1)
      { next_state hdr env (identify env.device).offset k
          (chan_region (identify env.device) k)
          { channels := (identify env.device).portNum, net_dev := net_dev_upto k
            RegShift := (identify env.device).RegShift } st with
        trace := (next_state hdr env (identify env.device).offset k
          (chan_region (identify env.device) k)
          { channels := (identify env.device).portNum, net_dev := net_dev_upto k
            RegShift := (identify env.device).RegShift } st).trace ++
            [Event.free_sja1000dev st.devs.length] } (by omega) hp
      (by simp [next_state, hinv.len, net_dev_upto_set k (by omega)])
      (by
        intro d hd
        simp [next_state, adv_pci_reset_trace, adv_pci_read_reg, adv_pci_write_reg,
          registered_append, reg_step, hinv.regd, hr] at hd
        omega)
      (env.register_sja1000dev k)
    refine ⟨st', h1, fun j hj => ⟨h3 _ ?_, h4 j (by omega)⟩, h2⟩
    simp only [next_state, List.mem_append]
    left; left
    rw [adv_pci_reset_trace]
    simp [adv_pci_read_reg, adv_pci_write_reg, hinv.regev j hj]

/-- C4 at the four-channel card 0xc204 whose channel 2 is rejected by the registration
sink with -16: the probe returns -16 with channels 0 and 1 unregistered. -/
theorem C4_failed_channel_rolls_back_witness :
    2 < (identify env_third_rejected.device).portNum ∧
    (∀ j < 2, env_third_rejected.alloc_sja1000dev j = true ∧
      env_third_rejected.register_sja1000dev j = 0) ∧
    env_third_rejected.register_sja1000dev 2 ≠ 0 ∧
    ∃ st, adv_pci_add_one sja1000_h env_third_rejected = some (-16, st) ∧
      (∀ j < 2, Event.register_sja1000dev j 0 ∈ st.trace ∧
        Event.unregister_sja1000dev j ∈ st.trace) ∧
      registered st.trace = [] :=
  ⟨by decide, by decide, by decide,
    C4_failed_channel_rolls_back sja1000_h env_third_rejected 2 (by decide) rfl rfl
      (by decide) (Or.inr (by decide))⟩

/-! ## A fully successful probe -/

/-- C8, amended: for every device id of the single-region families the resolved
channel count is the low 3 bits of the id, which is 1, 2 or 4; the id 0xc204 resolves
to 4 channels with stride 0x400 and shift 2, and a probe of 0xc204 in which every call
succeeds returns 0 with exactly the 4 channel handles 0..3 registered. -/
theorem C8_single_region_channel_counts :
    (∀ d ∈ [0xc001, 0xc002, 0xc004, 0xc101, 0xc102, 0xc104,
            0xc201, 0xc202, 0xc204, 0xc301, 0xc302, 0xc304],
      (identify d).portNum = d &&& 0x7 ∧
      ((identify d).portNum = 1 ∨ (identify d).portNum = 2 ∨ (identify d).portNum = 4)) ∧
    identify 0xc204 =
      { portNum := 4, bar := 0, barFlag := 0, offset := 0x400, RegShift := 2 } ∧
    ∀ (hdr : Sja1000Header) (env : Env), env.device = 0xc204 →
      env.pci_enable_device = 0 → env.kzalloc = true →
      (∀ j < 4, env.alloc_sja1000dev j = true ∧ env.register_sja1000dev j = 0) →
      ∃ st, adv_pci_add_one hdr env = some (0, st) ∧
        registered st.trace = [3, 2, 1, 0] ∧ st.devs.length = 4 := by
  refine ⟨by decide, by decide, ?_⟩
  intro hdr env hdev hen hkz hok
  have h4 : (identify env.device).portNum = 4 := by rw [hdev]; rfl
  obtain ⟨st, hinv, hrun⟩ := add_loop_reach hdr env (identify env.device) (loop_entry env)
    (loop_entry_inv env) 4 (by decide) hok
  refine ⟨st, ?_, hinv.regd, hinv.len⟩
  rw [adv_pci_add_one_eq_loop hdr env hen hkz, h4, hrun 0]
  rfl

/-- C8 amended, at the card 0xc204 of `env_ok`. -/
theorem C8_single_region_channel_counts_witness :
    (env_ok 0xc204).device = 0xc204 ∧
    (∀ j < 4, (env_ok 0xc204).alloc_sja1000dev j = true ∧
      (env_ok 0xc204).register_sja1000dev j = 0) ∧
    ∃ st, adv_pci_add_one sja1000_h (env_ok 0xc204) = some (0, st) ∧
      registered st.trace = [3, 2, 1, 0] ∧ st.devs.length = 4 :=
  ⟨rfl, by decide,
    C8_single_region_channel_counts.2.2 sja1000_h (env_ok 0xc204) rfl rfl rfl (by decide)⟩

/-! ## Register windows after teardown -/

/-- C5, as stated, fails: after a successful probe of the one-channel card 0xc001 and
its removal by `adv_pci_remove_one`, the window mapped for channel 0 is still mapped;
and after the rollback of a probe whose registration is rejected, the window mapped
for the rejected channel is still mapped. -/
theorem C5_counterexample :
    ((adv_pci_add_one sja1000_h (env_ok 0xc001)).bind
        (fun r => adv_pci_remove_one r.2)).map (fun s => mapped_windows s.trace) =
      some [0x10000] ∧
    (adv_pci_add_one sja1000_h env_register_rejects).map
        (fun r => (r.1, mapped_windows r.2.trace)) = some (-16, [0x10000]) := by
  decide

/-- C5, amended: the probe maps one window per channel handle it allocates, and
neither the probe nor `adv_pci_remove_one` ever calls `pci_iounmap`. So after a failed
probe (rolled back through `adv_pci_remove_one` where a rollback is due) and after the
removal that follows a successful probe, every window mapped with `pci_iomap` is still
mapped: the number of mapped windows is the number of `pci_iomap` calls. -/
theorem C5_teardown_leaves_windows_mapped (hdr : Sja1000Header) (env : Env) :
    ∃ err st, adv_pci_add_one hdr env = some (err, st) ∧
      iomap_calls st.trace = st.devs.length ∧
      (err ≠ 0 → iounmap_calls st.trace = 0 ∧
        (mapped_windows st.trace).length = iomap_calls st.trace) ∧
      (err = 0 → ∃ st', adv_pci_remove_one st = some st' ∧
        iounmap_calls st'.trace = 0 ∧ iomap_calls st'.trace = iomap_calls st.trace ∧
        (mapped_windows st'.trace).length = iomap_calls st.trace) := by
  have hmw : ∀ tr, iounmap_calls tr = 0 → (mapped_windows tr).length = iomap_calls tr := by
    intro tr h
    simpa [mapped_windows] using mapped_windows_length tr [] h
  by_cases hen : env.pci_enable_device = 0
  · by_cases hkz : env.kzalloc = true
    · obtain ⟨⟨err, st⟩, hr⟩ := add_loop_total hdr env (identify env.device).barFlag
        (identify env.device).offset (identify env.device).portNum 0
        (identify env.device).bar (loop_entry env) _ rfl
      have hcalls := add_loop_calls hdr env _ _ _ _ _ _ _ hr rfl rfl
      refine ⟨err, st, by rw [adv_pci_add_one_eq_loop hdr env hen hkz, hr], hcalls.2,
        fun _ => ⟨hcalls.1, hmw _ hcalls.1⟩, ?_⟩
      intro herr
      subst herr
      obtain ⟨⟨card', hc', -, -⟩, -⟩ := add_loop_ok hdr env _ _ _ _ _ _ _ _ hr rfl rfl
      have hre := remove_events_calls card'
      have hk1 : iounmap_calls
          [Event.kfree, Event.pci_disable_device, Event.pci_set_drvdata false] = 0 := rfl
      have hk2 : iomap_calls
          [Event.kfree, Event.pci_disable_device, Event.pci_set_drvdata false] = 0 := rfl
      have h1 : iounmap_calls (st.trace ++ (remove_events card' ++
          [Event.kfree, Event.pci_disable_device, Event.pci_set_drvdata false])) = 0 := by
        have h0 := hcalls.1
        simp only [iounmap_calls, List.countP_append] at hre hk1 h0 ⊢
        omega
      have h2 : iomap_calls (st.trace ++ (remove_events card' ++
          [Event.kfree, Event.pci_disable_device, Event.pci_set_drvdata false])) =
          iomap_calls st.trace := by
        simp only [iomap_calls, List.countP_append] at hre hk2 ⊢
        omega
      refine ⟨_, adv_pci_remove_one_eq st card' hc', h1, h2, ?_⟩
      rw [hmw _ h1, h2]
    · have hkz' : env.kzalloc = false := by simpa using hkz
      refine ⟨- ENOMEM,
        { drvdata := none, devs := []
          trace := [Event.pci_enable_device env.pci_enable_device, Event.kzalloc false] },
        by simp [adv_pci_add_one, hen, hkz'], rfl, ?_, ?_⟩
      · intro _; exact ⟨rfl, rfl⟩
      · intro h; exact absurd h (by decide)
  · refine ⟨- ENODEV,
      { drvdata := none, devs := []
        trace := [Event.pci_enable_device env.pci_enable_device] },
      by simp [adv_pci_add_one, hen], rfl, ?_, ?_⟩
    · intro _; exact ⟨rfl, rfl⟩
    · intro h; exact absurd h (by decide)

/-- C5 amended, at the one-channel card 0xc001 of `env_ok`: the probe succeeds, and
after the removal one window, the one mapped for channel 0, is still mapped. -/
theorem C5_teardown_leaves_windows_mapped_witness :
    ∃ st st', adv_pci_add_one sja1000_h (env_ok 0xc001) = some (0, st) ∧
      adv_pci_remove_one st = some st' ∧ iounmap_calls st'.trace = 0 ∧
      (mapped_windows st'.trace).length = 1 := by
  obtain ⟨err, st, h, h1, -, h3⟩ :=
    C5_teardown_leaves_windows_mapped sja1000_h (env_ok 0xc001)
  have hev : (adv_pci_add_one sja1000_h (env_ok 0xc001)).map
      (fun r => (r.1, r.2.devs.length)) = some (0, 1) := by decide
  rw [h] at hev
  simp only [Option.map_some', Option.some.injEq, Prod.mk.injEq] at hev
  obtain ⟨he, hl⟩ := hev
  subst he
  obtain ⟨st', h4, h5, -, h7⟩ := h3 rfl
  exact ⟨st, st', h, h4, h5, by rw [h7, h1, hl]⟩

/-! ## Register addresses -/

/-- C7: in the state the probe leaves, there are at most as many channel handles as
the card has channels, and exactly as many after a successful probe. For every handle
`i`, with a card of the register shift of the model, `adv_pci_write_reg` and
`adv_pci_read_reg` of register `r` access the same address
`pci_iomap(region i) + i * offset + (r << RegShift)`, where region `i` is `bar + i`
when the model has a region per channel and `bar` otherwise; `r << RegShift` is
`r * 2 ^ RegShift` whenever that fits an `int`. -/
theorem C7_register_addresses (hdr : Sja1000Header) (env : Env) (err : Int) (st : State)
    (h : adv_pci_add_one hdr env = some (err, st)) :
    st.devs.length ≤ (identify env.device).portNum ∧
    (err = 0 → st.devs.length = (identify env.device).portNum ∧
      ∃ card, st.drvdata = some card ∧
        card.RegShift = (identify env.device).RegShift) ∧
    (∀ i < st.devs.length, ∃ d, st.devs[i]? = some d ∧
      ∀ card : adv_pci_card, card.RegShift = (identify env.device).RegShift →
      ∀ (r : Int) (v : Nat) (tr : List Event),
        adv_pci_write_reg card d.priv r v tr =
          tr ++ [Event.iowrite8 (v % 256)
            (env.pci_iomap i (chan_region (identify env.device) i) +
              ((i * (identify env.device).offset : Nat) : Int) +
              int_shl r (identify env.device).RegShift)] ∧
        (adv_pci_read_reg env card d.priv r tr).2 =
          tr ++ [Event.ioread8
            (env.pci_iomap i (chan_region (identify env.device) i) +
              ((i * (identify env.device).offset : Nat) : Int) +
              int_shl r (identify env.device).RegShift)
            (env.ioread8 tr
              (env.pci_iomap i (chan_region (identify env.device) i) +
                ((i * (identify env.device).offset : Nat) : Int) +
                int_shl r (identify env.device).RegShift) % 256)]) ∧
    ∀ r : Int, 0 ≤ r → r * 2 ^ (identify env.device).RegShift < 2 ^ 31 →
      int_shl r (identify env.device).RegShift = r * 2 ^ (identify env.device).RegShift := by
  refine ⟨?_, ?_, ?_, fun r h0 h1 => int_shl_of_no_overflow r _ h0 h1⟩
  all_goals
    by_cases hen : env.pci_enable_device = 0
    swap
    · simp only [adv_pci_add_one, ne_eq, hen, not_false_eq_true, if_true, Option.some.injEq,
        Prod.mk.injEq] at h
      obtain ⟨h1, h2⟩ := h
      subst h2
      first
        | exact Nat.zero_le _
        | (intro h0; rw [h0] at h1; exact absurd h1 (by decide))
        | (intro i hi; exact absurd hi (Nat.not_lt_zero i))
    by_cases hkz : env.kzalloc = true
    swap
    · simp only [adv_pci_add_one, ne_eq, hen, not_true_eq_false, if_false,
        Bool.not_eq_true] at h hkz
      simp only [hkz, if_true, Option.some.injEq, Prod.mk.injEq] at h
      obtain ⟨h1, h2⟩ := h
      subst h2
      first
        | exact Nat.zero_le _
        | (intro h0; rw [h0] at h1; exact absurd h1 (by decide))
        | (intro i hi; exact absurd hi (Nat.not_lt_zero i))
    rw [adv_pci_add_one_eq_loop hdr env hen hkz] at h
  · simpa using (add_loop_devs hdr env _ _ _ _ _ _ _ h rfl).1
  · intro h0
    subst h0
    obtain ⟨⟨card, hc, -, hs⟩, hl⟩ := add_loop_ok hdr env _ _ _ _ _ _ _ _ h rfl rfl
    exact ⟨by simpa using hl, card, hc, hs⟩
  · obtain ⟨hl, -, hdev⟩ := add_loop_devs hdr env _ _ _ _ _ _ _ h rfl
    have hp := identify_portNum_le env.device
    have ho := identify_offset_le env.device
    intro i hi
    obtain ⟨d, hd1, hd2⟩ := hdev i (Nat.zero_le i) hi
    have hmod : (identify env.device).offset * i % 2 ^ 32 =
        i * (identify env.device).offset := by
      have hi4 : i ≤ 4 := by
        unfold MAX_NO_OF_CHANNELS at hp
        simp only [Nat.zero_add] at hl
        omega
      have : (identify env.device).offset * i ≤ 0x400 * 4 := Nat.mul_le_mul ho hi4
      rw [Nat.mod_eq_of_lt (by omega), Nat.mul_comm]
    have hbase : d.priv.reg_base = env.pci_iomap i (chan_region (identify env.device) i) +
        ((i * (identify env.device).offset : Nat) : Int) := by
      rw [hd2, hmod]
      simp [chan_region]
    refine ⟨d, hd1, fun card hs r v tr => ?_⟩
    constructor <;> simp [adv_pci_write_reg, adv_pci_read_reg, hbase, hs]

/-- C7 at the two-channel card 0xc202: the handle of channel 1 is accessed at
`0x10000 + 1 * 0x400 + (r << 2)`. -/
theorem C7_register_addresses_witness :
    adv_pci_add_one sja1000_h (env_ok 0xc202) = some (0, state_after_probe_c202) ∧
    ∃ d, state_after_probe_c202.devs[1]? = some d ∧
      ∀ card : adv_pci_card, card.RegShift = 2 →
      ∀ (r : Int) (v : Nat) (tr : List Event),
        adv_pci_write_reg card d.priv r v tr =
          tr ++ [Event.iowrite8 (v % 256)
            (0x10000 + ((1 * 0x400 : Nat) : Int) + int_shl r 2)] :=
  ⟨by decide, by
    obtain ⟨-, -, h, -⟩ :=
      C7_register_addresses sja1000_h (env_ok 0xc202) 0 state_after_probe_c202 (by decide)
    obtain ⟨d, hd, hrw⟩ := h 1 (by decide)
    exact ⟨d, hd, fun card hs r v tr => (hrw card hs r v tr).1⟩⟩

end AdvPci
